import Mathlib

/-!
Verification of the raydium-sdk pool-state decoders and derived metrics.

The development shallowly embeds the Rust sources:
  * byte buffers are `List Nat` (each entry one byte value);
  * 32-byte identifiers (`Pubkey`) are the raw 32-entry byte list;
  * machine integers are `Nat` (little-endian assembly of bytes stays below
    `2 ^ (8 * width)` whenever the input entries are bytes); the one signed
    field (the CLMM current tick) is decoded into `Int` by explicit
    two's-complement reinterpretation; 64-bit wraparound is modelled with
    an explicit `% 2 ^ 64` where the source performs `u64` addition on
    decoded fields;
  * `f64` arithmetic in the derived metrics is modelled exactly over `ℚ`
    (the guards and case splits are translated verbatim; rounding of the
    conversions between integers and floats is idealised away);
  * fallible decoding returns `Except DecodeErr`, with one error
    constructor per distinct `Err(format!(...))` site of the source, and a
    `panicOOB` constructor standing for a Rust index-out-of-range panic in
    slice indexing;
  * the wall-clock read (`SystemTime::now`) inside the vesting metric is
    surfaced as an explicit `current_time` parameter.
-/

/-- Little-endian value of a byte list: `leNat [b0, b1, ...] = b0 + 256*b1 + ...`.
Embeds `uN::from_le_bytes`. -/
def leNat (bs : List Nat) : Nat :=
  bs.foldr (fun b acc => b + 256 * acc) 0

/-- A 32-byte identifier, kept as its raw byte list (opaque value type). -/
abbrev Pubkey := List Nat

/-- The all-zero identifier, `Pubkey::default()`. -/
def Pubkey.zero : Pubkey := List.replicate 32 0

/-- Decode-time failures.  The Rust decoders return `Result<_, String>`:
each constructor corresponds to one distinct `Err(format!(...))` site.
  * `sizeMismatch expected got` — "... pool data size mismatch. Expected {expected}, got {got}"
    (launchpad / CPMM / CLMM length precheck);
  * `offsetMismatch expected got` — "Data parsing incomplete. Expected offset {expected}, got {got}";
  * `invalidPoolStatus b` — "Invalid pool status: {b}";
  * `invalidMigrateType b` — "Invalid migrate type: {b}";
  * `invalidCreatorFeeOn b` — "Invalid creator fee on value: {b}";
  * `v4SizeMismatch` — "raydium liquidity pool v4 data size does not meet requirements.";
  * `v4LengthError` — "account data length error";
  * `panicOOB` — models a Rust panic from out-of-range slice indexing
    (`d[o..o+w]` on a too-short slice); not a `Result` error in the source. -/
inductive DecodeErr where
  | sizeMismatch (expected got : Nat)
  | offsetMismatch (expected got : Nat)
  | invalidPoolStatus (b : Nat)
  | invalidMigrateType (b : Nat)
  | invalidCreatorFeeOn (b : Nat)
  | v4SizeMismatch
  | v4LengthError
  | panicOOB
  deriving DecidableEq, Repr

/-- Reduction of `bind` over a successful `Except` (for walking the decoders). -/
@[simp] theorem exceptOkBind {ε α β : Type} (a : α) (f : α → Except ε β) :
    (Except.ok a : Except ε α) >>= f = f a := rfl

/-- Reduction of `bind` over a failed `Except`. -/
@[simp] theorem exceptErrorBind {ε α β : Type} (e : ε) (f : α → Except ε β) :
    (Except.error e : Except ε α) >>= f = Except.error e := rfl

/-- Reduction of `map` over a successful `Except`. -/
@[simp] theorem exceptMapOk {ε α β : Type} (a : α) (f : α → β) :
    (Except.ok a : Except ε α).map f = Except.ok (f a) := rfl

/-- Reduction of `map` over a failed `Except`. -/
@[simp] theorem exceptMapError {ε α β : Type} (e : ε) (f : α → β) :
    (Except.error e : Except ε α).map f = Except.error e := rfl

/-- Whether an `Except` is a success. -/
def isOkE {ε α : Type} : Except ε α → Bool
  | .ok _ => true
  | .error _ => false

/-- Read `w` raw bytes at `offset`: Rust `d[offset..offset+w]`, which panics when
the span leaves the slice. -/
def rdBytes (d : List Nat) (offset w : Nat) : Except DecodeErr (List Nat) :=
  if offset + w ≤ d.length then .ok ((d.drop offset).take w) else .error .panicOOB

/-- Closure `read_u8`: `d[offset]` (panics out of range), cursor advances by 1. -/
def rdU8 (d : List Nat) (offset : Nat) : Except DecodeErr Nat :=
  if offset + 1 ≤ d.length then .ok (d.getD offset 0) else .error .panicOOB

/-- Closure `read_u16`: `u16::from_le_bytes(d[offset..offset+2])`. -/
def rdU16 (d : List Nat) (offset : Nat) : Except DecodeErr Nat :=
  (rdBytes d offset 2).map leNat

/-- Closure `read_u64`: `u64::from_le_bytes(d[offset..offset+8])`. -/
def rdU64 (d : List Nat) (offset : Nat) : Except DecodeErr Nat :=
  (rdBytes d offset 8).map leNat

/-- Closure `read_u128`: `u128::from_le_bytes(d[offset..offset+16])`. -/
def rdU128 (d : List Nat) (offset : Nat) : Except DecodeErr Nat :=
  (rdBytes d offset 16).map leNat

/-- Closure `read_i32`: `i32::from_le_bytes(d[offset..offset+4])`, the
little-endian word reinterpreted in two's complement. -/
def rdI32 (d : List Nat) (offset : Nat) : Except DecodeErr Int :=
  (rdBytes d offset 4).map (fun bs =>
    let v := leNat bs
    if v < 2 ^ 31 then (v : Int) else (v : Int) - 2 ^ 32)

/-- Closure `read_pubkey`: `Pubkey::new_from_array(d[offset..offset+32])`. -/
def rdPubkey (d : List Nat) (offset : Nat) : Except DecodeErr Pubkey :=
  rdBytes d offset 32

namespace reader

/-- Embeds `reader::r_u8` of `src/tool.rs`: returns 0 when `offset` is past the
end, the byte at `offset` otherwise.  (It performs no offset arithmetic, so no
`usize` overflow is possible, and the guarded index cannot panic.) -/
def r_u8 (data : List Nat) (offset : Nat) : Nat :=
  if data.length ≤ offset then 0 else data.getD offset 0

/-- Embeds `reader::r_u16`.  The guard evaluates the `usize` sum `offset + 2`
first: when that sum overflows `usize` the source panics — outright under
overflow checks, and in a wrapping build the guard compares against the
wrapped end so that `data[offset..offset+2]` then panics whenever the slice
reaches the wrapped end; `none` models that panic region (the full overflow
region, following the checked semantics — the wrapping build instead returns
0 on the sliver of it where the slice is shorter than the wrapped end).
Without overflow: `some 0` when fewer than 2 bytes remain at `offset`, the
little-endian value otherwise. -/
def r_u16 (data : List Nat) (offset : Nat) : Option Nat :=
  if 2 ^ 64 ≤ offset + 2 then none
  else if data.length < offset + 2 then some 0
  else some (leNat ((data.drop offset).take 2))

/-- Embeds `reader::r_u32`: `none` when `offset + 4` overflows `usize` (the
source panics there, see `r_u16`), `some 0` when fewer than 4 bytes remain,
the little-endian value otherwise. -/
def r_u32 (data : List Nat) (offset : Nat) : Option Nat :=
  if 2 ^ 64 ≤ offset + 4 then none
  else if data.length < offset + 4 then some 0
  else some (leNat ((data.drop offset).take 4))

/-- Embeds `reader::r_u64`: `none` when `offset + 8` overflows `usize` (the
source panics there, see `r_u16`), `some 0` when fewer than 8 bytes remain,
the little-endian value otherwise. -/
def r_u64 (data : List Nat) (offset : Nat) : Option Nat :=
  if 2 ^ 64 ≤ offset + 8 then none
  else if data.length < offset + 8 then some 0
  else some (leNat ((data.drop offset).take 8))

/-- Embeds `reader::r_u128`: `none` when `offset + 16` overflows `usize` (the
source panics there, see `r_u16`), `some 0` when fewer than 16 bytes remain,
the little-endian value otherwise. -/
def r_u128 (data : List Nat) (offset : Nat) : Option Nat :=
  if 2 ^ 64 ≤ offset + 16 then none
  else if data.length < offset + 16 then some 0
  else some (leNat ((data.drop offset).take 16))

/-- Embeds `reader::r_pubkey`: `none` when `offset + 32` overflows `usize`
(the source panics there, see `r_u16`), `Pubkey::default()` when fewer than
32 bytes remain, the raw 32 bytes otherwise. -/
def r_pubkey (data : List Nat) (offset : Nat) : Option Pubkey :=
  if 2 ^ 64 ≤ offset + 32 then none
  else if data.length < offset + 32 then some Pubkey.zero
  else some ((data.drop offset).take 32)

/-- Embeds `reader::r_string` at the byte level: empty when the offset or the
length-prefixed span is out of bounds, otherwise the `len` bytes after the
length byte.  (The source's lossy UTF-8 decoding of those bytes is abstracted
to the raw bytes; it is total and byte-determined.  Unlike the fixed-width
readers, its sums cannot overflow `usize`: the first guard forces
`offset < data.len()`, a Rust slice length is at most `isize::MAX`, and the
length byte is at most 255, so `offset + 1 + len` stays far below `2^64`.) -/
def r_string (data : List Nat) (offset : Nat) : List Nat :=
  if data.length ≤ offset then []
  else
    let len := data.getD offset 0
    if data.length < offset + 1 + len then []
    else (data.drop (offset + 1)).take len

/-- Embeds `reader::r_bool`: `r_u8 data offset != 0`. -/
def r_bool (data : List Nat) (offset : Nat) : Bool :=
  r_u8 data offset != 0

end reader

/-- Lifts a fixed-width reader result into a decode: the reader's modelled
panic (`none`) becomes the decode-level panic marker.  At every call site in
this file the offset is a small constant, so the panic arm is unreachable. -/
def readerPanic {α : Type} : Option α → Except DecodeErr α
  | some a => .ok a
  | none => .error .panicOOB

/-- Reduction of `readerPanic` over a present value. -/
@[simp] theorem readerPanic_some {α : Type} (a : α) :
    readerPanic (some a) = (.ok a : Except DecodeErr α) := rfl

/-- Reduction of `readerPanic` over the panic marker. -/
@[simp] theorem readerPanic_none {α : Type} :
    readerPanic (none : Option α) = (.error .panicOOB : Except DecodeErr α) := rfl

/-- Pool status of the launchpad (bonding-curve) pool: codes 0, 1, 2. -/
inductive PoolStatus where
  | Fund
  | Migrate
  | Trade
  deriving DecidableEq, Repr

/-- Migration type of the launchpad pool: codes 0, 1. -/
inductive MigrateType where
  | AMM
  | CPSWAP
  deriving DecidableEq, Repr

/-- Per-side token-interface selection decoded from one bit of the flag byte. -/
inductive TokenProgramFlag where
  | SPLTokenProgram
  | TokenProgram2022
  deriving DecidableEq, Repr

/-- The two bit-decoded per-side token-program selections. -/
structure TokenProgramFlagBits where
  base_token_program : TokenProgramFlag
  quote_token_program : TokenProgramFlag
  deriving DecidableEq, Repr

/-- Creator-fee distribution mode of the launchpad pool: codes 0, 1. -/
inductive AmmCreatorFeeOn where
  | QuoteToken
  | BothToken
  deriving DecidableEq, Repr

/-- Vesting schedule sub-record of the launchpad pool (five u64 fields). -/
structure VestingSchedule where
  total_locked_amount : Nat
  cliff_period : Nat
  unlock_period : Nat
  start_time : Nat
  allocated_share_amount : Nat
  deriving DecidableEq, Repr

/-- Typed record produced by `LaunchpadPool::get_liquidity_pool_info`. -/
structure LaunchpadPoolData where
  epoch : Nat
  auth_bump : Nat
  status : PoolStatus
  base_decimals : Nat
  quote_decimals : Nat
  migrate_type : MigrateType
  supply : Nat
  total_base_sell : Nat
  virtual_base : Nat
  virtual_quote : Nat
  real_base : Nat
  real_quote : Nat
  total_quote_fund_raising : Nat
  quote_protocol_fee : Nat
  platform_fee : Nat
  migrate_fee : Nat
  vesting_schedule : VestingSchedule
  global_config : Pubkey
  platform_config : Pubkey
  base_mint : Pubkey
  quote_mint : Pubkey
  base_vault : Pubkey
  quote_vault : Pubkey
  creator : Pubkey
  token_program_flag : TokenProgramFlagBits
  amm_creator_fee_on : AmmCreatorFeeOn
  deriving DecidableEq, Repr

/-- Classifier for the launchpad pool-status byte: `0 → Fund, 1 → Migrate,
2 → Trade`, any other byte is an error carrying the raw value. -/
def poolStatusOfByte (b : Nat) : Except DecodeErr PoolStatus :=
  match b with
  | 0 => .ok .Fund
  | 1 => .ok .Migrate
  | 2 => .ok .Trade
  | _ => .error (.invalidPoolStatus b)

/-- Classifier for the launchpad migrate-type byte: `0 → AMM, 1 → CPSWAP`,
any other byte is an error carrying the raw value. -/
def migrateTypeOfByte (b : Nat) : Except DecodeErr MigrateType :=
  match b with
  | 0 => .ok .AMM
  | 1 => .ok .CPSWAP
  | _ => .error (.invalidMigrateType b)

/-- Classifier for the launchpad creator-fee-mode byte: `0 → QuoteToken,
1 → BothToken`, any other byte is an error carrying the raw value. -/
def ammCreatorFeeOnOfByte (b : Nat) : Except DecodeErr AmmCreatorFeeOn :=
  match b with
  | 0 => .ok .QuoteToken
  | 1 => .ok .BothToken
  | _ => .error (.invalidCreatorFeeOn b)

/-- Bit test `byte & 0b1`: bit 0 selects the base-side token program. -/
def baseTokenProgramOfFlag (b : Nat) : TokenProgramFlag :=
  if b % 2 = 0 then .SPLTokenProgram else .TokenProgram2022

/-- Bit test `byte & 0b10`: bit 1 selects the quote-side token program. -/
def quoteTokenProgramOfFlag (b : Nat) : TokenProgramFlag :=
  if b / 2 % 2 = 0 then .SPLTokenProgram else .TokenProgram2022

/-- Declared total size of the launchpad pool account blob. -/
def LAUNCHPAD_POOL_STATE_DATA_SIZE : Nat := 429

/-- The field walk of `LaunchpadPool::get_liquidity_pool_info` after the length
precheck.  The running cursor starts at the 8-byte discriminator and is
threaded through every read; the literal offsets reproduce that thread:
epoch 8, auth_bump 16, status 17, base_decimals 18, quote_decimals 19,
migrate_type 20, then sixteen u64 fields from 21 (the 3-byte `_padding1`
region of the declared layout is never skipped by the source), seven 32-byte
identifiers from 141, flag bytes 365 and 366, reaching 367; the source then
adds `LAUNCHPAD_POOL_STATE_DATA_SIZE - offset` and compares the result with
the input length. -/
def launchpadWalk (d : List Nat) : Except DecodeErr LaunchpadPoolData := do
  let epoch ← rdU64 d 8
  let auth_bump ← rdU8 d 16
  let status_byte ← rdU8 d 17
  let base_decimals ← rdU8 d 18
  let quote_decimals ← rdU8 d 19
  let migrate_type_byte ← rdU8 d 20
  let supply ← rdU64 d 21
  let total_base_sell ← rdU64 d 29
  let virtual_base ← rdU64 d 37
  let virtual_quote ← rdU64 d 45
  let real_base ← rdU64 d 53
  let real_quote ← rdU64 d 61
  let total_quote_fund_raising ← rdU64 d 69
  let quote_protocol_fee ← rdU64 d 77
  let platform_fee ← rdU64 d 85
  let migrate_fee ← rdU64 d 93
  let total_locked_amount ← rdU64 d 101
  let cliff_period ← rdU64 d 109
  let unlock_period ← rdU64 d 117
  let start_time ← rdU64 d 125
  let allocated_share_amount ← rdU64 d 133
  let global_config ← rdPubkey d 141
  let platform_config ← rdPubkey d 173
  let base_mint ← rdPubkey d 205
  let quote_mint ← rdPubkey d 237
  let base_vault ← rdPubkey d 269
  let quote_vault ← rdPubkey d 301
  let creator ← rdPubkey d 333
  let token_program_flag_byte ← rdU8 d 365
  let amm_creator_fee_on_byte ← rdU8 d 366
  let offset := 367 + (LAUNCHPAD_POOL_STATE_DATA_SIZE - 367)
  if offset ≠ d.length then
    throw (.offsetMismatch d.length offset)
  let status ← poolStatusOfByte status_byte
  let migrate_type ← migrateTypeOfByte migrate_type_byte
  let base_token_program := baseTokenProgramOfFlag token_program_flag_byte
  let quote_token_program := quoteTokenProgramOfFlag token_program_flag_byte
  let amm_creator_fee_on ← ammCreatorFeeOnOfByte amm_creator_fee_on_byte
  pure {
    epoch := epoch
    auth_bump := auth_bump
    status := status
    base_decimals := base_decimals
    quote_decimals := quote_decimals
    migrate_type := migrate_type
    supply := supply
    total_base_sell := total_base_sell
    virtual_base := virtual_base
    virtual_quote := virtual_quote
    real_base := real_base
    real_quote := real_quote
    total_quote_fund_raising := total_quote_fund_raising
    quote_protocol_fee := quote_protocol_fee
    platform_fee := platform_fee
    migrate_fee := migrate_fee
    vesting_schedule := {
      total_locked_amount := total_locked_amount
      cliff_period := cliff_period
      unlock_period := unlock_period
      start_time := start_time
      allocated_share_amount := allocated_share_amount }
    global_config := global_config
    platform_config := platform_config
    base_mint := base_mint
    quote_mint := quote_mint
    base_vault := base_vault
    quote_vault := quote_vault
    creator := creator
    token_program_flag := {
      base_token_program := base_token_program
      quote_token_program := quote_token_program }
    amm_creator_fee_on := amm_creator_fee_on }

namespace LaunchpadPool

/-- Embeds `LaunchpadPool::get_liquidity_pool_info`: reject any length other
than 429 with the size-mismatch error naming both values, then run the walk. -/
def get_liquidity_pool_info (d : List Nat) : Except DecodeErr LaunchpadPoolData :=
  if d.length ≠ LAUNCHPAD_POOL_STATE_DATA_SIZE then
    .error (.sizeMismatch LAUNCHPAD_POOL_STATE_DATA_SIZE d.length)
  else
    launchpadWalk d

end LaunchpadPool

namespace LaunchpadPoolData

/-- Embeds `LaunchpadPoolData::get_price`: 0 when `virtual_base` is 0, else
`virtual_quote / virtual_base` (f64 division modelled over ℚ). -/
def get_price (p : LaunchpadPoolData) : ℚ :=
  if p.virtual_base = 0 then 0 else (p.virtual_quote : ℚ) / (p.virtual_base : ℚ)

/-- Embeds `LaunchpadPoolData::get_real_price`: 0 when `real_base` is 0, else
`real_quote / real_base`. -/
def get_real_price (p : LaunchpadPoolData) : ℚ :=
  if p.real_base = 0 then 0 else (p.real_quote : ℚ) / (p.real_base : ℚ)

/-- Embeds `LaunchpadPoolData::get_total_value`:
`real_base * get_real_price() + real_quote`. -/
def get_total_value (p : LaunchpadPoolData) : ℚ :=
  (p.real_base : ℚ) * p.get_real_price + (p.real_quote : ℚ)

/-- Embeds `LaunchpadPoolData::is_funding`:
`matches!(self.status, PoolStatus::Fund)`. -/
def is_funding (p : LaunchpadPoolData) : Bool :=
  match p.status with
  | .Fund => true
  | _ => false

/-- Embeds `LaunchpadPoolData::is_tradable`:
`matches!(self.status, PoolStatus::Trade)`. -/
def is_tradable (p : LaunchpadPoolData) : Bool :=
  match p.status with
  | .Trade => true
  | _ => false

/-- Embeds `LaunchpadPoolData::get_funding_progress`: 0 when the fund-raising
target is 0, else `(real_quote / total_quote_fund_raising) * 100`. -/
def get_funding_progress (p : LaunchpadPoolData) : ℚ :=
  if p.total_quote_fund_raising = 0 then 0
  else (p.real_quote : ℚ) / (p.total_quote_fund_raising : ℚ) * 100

/-- The `u64` modulus: additions of `u64` fields in the source wrap at this. -/
def U64MOD : Nat := 2 ^ 64

/-- Rust `as u64` on a nonnegative finite f64: truncate toward zero and
saturate at `u64::MAX` (negative values clamp to 0 via `Int.toNat`). -/
def f64AsU64 (q : ℚ) : Nat :=
  min (Int.toNat ⌊q⌋) (U64MOD - 1)

/-- Embeds `LaunchpadPoolData::get_unlocked_amount`, with the wall-clock read
(`SystemTime::now().duration_since(UNIX_EPOCH).as_secs()`) surfaced as the
explicit parameter `current_time`.  The two threshold sums are `u64`
additions, hence taken modulo `2 ^ 64`; the middle branch's f64 arithmetic
(`elapsed / unlock_period`, `min 1.0`, multiply, truncate) is modelled
over ℚ. -/
def get_unlocked_amount (p : LaunchpadPoolData) (current_time : Nat) : Nat :=
  if p.vesting_schedule.total_locked_amount = 0 then 0
  else
    let cliffEnd := (p.vesting_schedule.start_time + p.vesting_schedule.cliff_period) % U64MOD
    let unlockEnd := (cliffEnd + p.vesting_schedule.unlock_period) % U64MOD
    if current_time < cliffEnd then 0
    else if current_time ≥ unlockEnd then p.vesting_schedule.total_locked_amount
    else
      let elapsed := current_time - cliffEnd
      let unlock_ratio : ℚ := (elapsed : ℚ) / (p.vesting_schedule.unlock_period : ℚ)
      f64AsU64 ((p.vesting_schedule.total_locked_amount : ℚ) * min unlock_ratio 1)

end LaunchpadPoolData

/-- The record decoded from a zero-filled 429-byte launchpad blob: every
integer 0, every identifier all-zero, every enum at its code-0 value. -/
def launchpadZeroData : LaunchpadPoolData where
  epoch := 0
  auth_bump := 0
  status := .Fund
  base_decimals := 0
  quote_decimals := 0
  migrate_type := .AMM
  supply := 0
  total_base_sell := 0
  virtual_base := 0
  virtual_quote := 0
  real_base := 0
  real_quote := 0
  total_quote_fund_raising := 0
  quote_protocol_fee := 0
  platform_fee := 0
  migrate_fee := 0
  vesting_schedule := {
    total_locked_amount := 0
    cliff_period := 0
    unlock_period := 0
    start_time := 0
    allocated_share_amount := 0 }
  global_config := Pubkey.zero
  platform_config := Pubkey.zero
  base_mint := Pubkey.zero
  quote_mint := Pubkey.zero
  base_vault := Pubkey.zero
  quote_vault := Pubkey.zero
  creator := Pubkey.zero
  token_program_flag := {
    base_token_program := .SPLTokenProgram
    quote_token_program := .SPLTokenProgram }
  amm_creator_fee_on := .QuoteToken

/-- Typed record produced by `RaydiumLiquidityPoolCPMM::get_liquidity_pool_info`.
The decoded 6-byte gap and the 28-word padding loop results are local to the
decode and are not part of this record, exactly as in the source. -/
structure RaydiumLiquidityPoolCPMMData where
  amm_config : Pubkey
  pool_creator : Pubkey
  token_0_vault : Pubkey
  token_1_vault : Pubkey
  lp_mint : Pubkey
  token_0_mint : Pubkey
  token_1_mint : Pubkey
  token_0_program : Pubkey
  token_1_program : Pubkey
  observation_key : Pubkey
  auth_bump : Nat
  status : Nat
  lp_mint_decimals : Nat
  mint_0_decimals : Nat
  mint_1_decimals : Nat
  lp_supply : Nat
  protocol_fees_token_0 : Nat
  protocol_fees_token_1 : Nat
  fund_fees_token_0 : Nat
  fund_fees_token_1 : Nat
  open_time : Nat
  recent_epoch : Nat
  creator_fee_on : Nat
  enable_creator_fee : Bool
  creator_fees_token_0 : Nat
  creator_fees_token_1 : Nat
  deriving DecidableEq, Repr

/-- Declared total size of the CPMM pool account blob. -/
def RAYDIUM_LIQUIDITY_POOL_CPMM_DATA_SIZE : Nat := 637

/-- The trailing padding loop of the CPMM decoder: up to 28 u64 reads, each
guarded by `if end > data.len() { break }`; the words land in a local array
that the returned record does not contain, so only the final cursor position
is observable.  Returns that final cursor position. -/
def cpmmPadLoop (d : List Nat) : Nat → Nat → Nat
  | offset, 0 => offset
  | offset, k + 1 =>
    if offset + 8 > d.length then offset else cpmmPadLoop d (offset + 8) k

/-- The field walk of `RaydiumLiquidityPoolCPMM::get_liquidity_pool_info` after
the length precheck.  Cursor thread: ten 32-byte identifiers from 8 (after the
discriminator), five direct byte indexings at 328..332, seven u64 fields from
333, two flag bytes at 389 and 390, a 6-byte reserved gap at 391, two u64
creator-fee fields at 397 and 405, then the guarded padding loop from 413.
The source performs no final-offset comparison: the walk ends in `Ok`. -/
def cpmmWalk (d : List Nat) : Except DecodeErr RaydiumLiquidityPoolCPMMData := do
  let amm_config ← rdPubkey d 8
  let pool_creator ← rdPubkey d 40
  let token_0_vault ← rdPubkey d 72
  let token_1_vault ← rdPubkey d 104
  let lp_mint ← rdPubkey d 136
  let token_0_mint ← rdPubkey d 168
  let token_1_mint ← rdPubkey d 200
  let token_0_program ← rdPubkey d 232
  let token_1_program ← rdPubkey d 264
  let observation_key ← rdPubkey d 296
  let auth_bump ← rdU8 d 328
  let status ← rdU8 d 329
  let lp_mint_decimals ← rdU8 d 330
  let mint_0_decimals ← rdU8 d 331
  let mint_1_decimals ← rdU8 d 332
  let lp_supply ← rdU64 d 333
  let protocol_fees_token_0 ← rdU64 d 341
  let protocol_fees_token_1 ← rdU64 d 349
  let fund_fees_token_0 ← rdU64 d 357
  let fund_fees_token_1 ← rdU64 d 365
  let open_time ← rdU64 d 373
  let recent_epoch ← rdU64 d 381
  let creator_fee_on ← rdU8 d 389
  let enable_creator_fee_byte ← rdU8 d 390
  let _padding1 ← rdBytes d 391 6
  let creator_fees_token_0 ← rdU64 d 397
  let creator_fees_token_1 ← rdU64 d 405
  let _finalOffset := cpmmPadLoop d 413 28
  pure {
    amm_config := amm_config
    pool_creator := pool_creator
    token_0_vault := token_0_vault
    token_1_vault := token_1_vault
    lp_mint := lp_mint
    token_0_mint := token_0_mint
    token_1_mint := token_1_mint
    token_0_program := token_0_program
    token_1_program := token_1_program
    observation_key := observation_key
    auth_bump := auth_bump
    status := status
    lp_mint_decimals := lp_mint_decimals
    mint_0_decimals := mint_0_decimals
    mint_1_decimals := mint_1_decimals
    lp_supply := lp_supply
    protocol_fees_token_0 := protocol_fees_token_0
    protocol_fees_token_1 := protocol_fees_token_1
    fund_fees_token_0 := fund_fees_token_0
    fund_fees_token_1 := fund_fees_token_1
    open_time := open_time
    recent_epoch := recent_epoch
    creator_fee_on := creator_fee_on
    enable_creator_fee := enable_creator_fee_byte != 0
    creator_fees_token_0 := creator_fees_token_0
    creator_fees_token_1 := creator_fees_token_1 }

namespace RaydiumLiquidityPoolCPMM

/-- Embeds `RaydiumLiquidityPoolCPMM::get_liquidity_pool_info`: reject any
length other than 637 with the size-mismatch error naming both values, then
run the walk. -/
def get_liquidity_pool_info (d : List Nat) : Except DecodeErr RaydiumLiquidityPoolCPMMData :=
  if d.length ≠ RAYDIUM_LIQUIDITY_POOL_CPMM_DATA_SIZE then
    .error (.sizeMismatch RAYDIUM_LIQUIDITY_POOL_CPMM_DATA_SIZE d.length)
  else
    cpmmWalk d

end RaydiumLiquidityPoolCPMM

/-- Failure of the CPMM external-balance price metric. -/
inductive PriceErr where
  | baseAmountZero
  deriving DecidableEq, Repr

/-- Modelled from the spec: the excluded collaborator's balance normalisation
(`solana_tool::unit::conver_balance`), "a raw integer amount plus a decimals
count used to normalize it" — the raw amount scaled down by `10 ^ decimals`. -/
def converBalance (balance : Nat) (decimals : Nat) : ℚ :=
  (balance : ℚ) / (10 : ℚ) ^ decimals

namespace RaydiumLiquidityPoolCPMMData

/-- Embeds the pure tail of `RaydiumLiquidityPoolCPMMData::get_price` once the
two externally fetched vault balances are in hand: normalize both by the
decoded decimals, return `quote / base` when the base amount is positive and
the zero-base error otherwise. -/
def get_price_core (p : RaydiumLiquidityPoolCPMMData)
    (base_balance quote_balance : Nat) : Except PriceErr ℚ :=
  let base_amount := converBalance base_balance p.mint_0_decimals
  let quote_amount := converBalance quote_balance p.mint_1_decimals
  if base_amount > 0 then .ok (quote_amount / base_amount)
  else .error .baseAmountZero

end RaydiumLiquidityPoolCPMMData

/-- The record decoded from a zero-filled 637-byte CPMM blob. -/
def cpmmZeroData : RaydiumLiquidityPoolCPMMData where
  amm_config := Pubkey.zero
  pool_creator := Pubkey.zero
  token_0_vault := Pubkey.zero
  token_1_vault := Pubkey.zero
  lp_mint := Pubkey.zero
  token_0_mint := Pubkey.zero
  token_1_mint := Pubkey.zero
  token_0_program := Pubkey.zero
  token_1_program := Pubkey.zero
  observation_key := Pubkey.zero
  auth_bump := 0
  status := 0
  lp_mint_decimals := 0
  mint_0_decimals := 0
  mint_1_decimals := 0
  lp_supply := 0
  protocol_fees_token_0 := 0
  protocol_fees_token_1 := 0
  fund_fees_token_0 := 0
  fund_fees_token_1 := 0
  open_time := 0
  recent_epoch := 0
  creator_fee_on := 0
  enable_creator_fee := false
  creator_fees_token_0 := 0
  creator_fees_token_1 := 0

/-- One CLMM reward-emission sub-record (169 bytes on the wire). -/
structure RewardInfo where
  reward_state : Nat
  open_time : Nat
  end_time : Nat
  last_update_time : Nat
  emissions_per_second_x64 : Nat
  reward_total_emissioned : Nat
  reward_claimed : Nat
  token_mint : Pubkey
  token_vault : Pubkey
  authority : Pubkey
  reward_growth_global_x64 : Nat
  deriving DecidableEq, Repr

/-- Typed record produced by `RaydiumLiquidityPoolCLMM::get_liquidity_pool_info`. -/
structure RaydiumLiquidityPoolCLMMData where
  bump : Nat
  amm_config : Pubkey
  owner : Pubkey
  token_mint_0 : Pubkey
  token_mint_1 : Pubkey
  token_vault_0 : Pubkey
  token_vault_1 : Pubkey
  observation_key : Pubkey
  mint_decimals_0 : Nat
  mint_decimals_1 : Nat
  tick_spacing : Nat
  liquidity : Nat
  sqrt_price_x64 : Nat
  tick_current : Int
  fee_growth_global_0_x64 : Nat
  fee_growth_global_1_x64 : Nat
  protocol_fees_token_0 : Nat
  protocol_fees_token_1 : Nat
  swap_in_amount_token_0 : Nat
  swap_out_amount_token_1 : Nat
  swap_in_amount_token_1 : Nat
  swap_out_amount_token_0 : Nat
  status : Nat
  reward_infos : List RewardInfo
  tick_array_bitmap : List Nat
  total_fees_token_0 : Nat
  total_fees_claimed_token_0 : Nat
  total_fees_token_1 : Nat
  total_fees_claimed_token_1 : Nat
  fund_fees_token_0 : Nat
  fund_fees_token_1 : Nat
  open_time : Nat
  recent_epoch : Nat
  deriving DecidableEq, Repr

/-- Declared total size of the CLMM pool account blob. -/
def RAYDIUM_LIQUIDITY_POOL_CLMM_DATA_SIZE : Nat := 1544

/-- One iteration of the CLMM reward-info loop, reading the eleven fields of
the sub-record starting at base offset `b` (relative offsets 0, 1, 9, 17, 25,
41, 49, 57, 89, 121, 153; total span 169 bytes). -/
def rdRewardInfo (d : List Nat) (b : Nat) : Except DecodeErr RewardInfo := do
  let reward_state ← rdU8 d b
  let open_time ← rdU64 d (b + 1)
  let end_time ← rdU64 d (b + 9)
  let last_update_time ← rdU64 d (b + 17)
  let emissions_per_second_x64 ← rdU128 d (b + 25)
  let reward_total_emissioned ← rdU64 d (b + 41)
  let reward_claimed ← rdU64 d (b + 49)
  let token_mint ← rdPubkey d (b + 57)
  let token_vault ← rdPubkey d (b + 89)
  let authority ← rdPubkey d (b + 121)
  let reward_growth_global_x64 ← rdU128 d (b + 153)
  pure {
    reward_state := reward_state
    open_time := open_time
    end_time := end_time
    last_update_time := last_update_time
    emissions_per_second_x64 := emissions_per_second_x64
    reward_total_emissioned := reward_total_emissioned
    reward_claimed := reward_claimed
    token_mint := token_mint
    token_vault := token_vault
    authority := authority
    reward_growth_global_x64 := reward_growth_global_x64 }

/-- The 16-iteration tick-array bitmap loop: sixteen u64 words starting at
offset 904 (8 bytes apart), in slot order. -/
def rdTickArrayBitmap (d : List Nat) : Except DecodeErr (List Nat) := do
  let w0 ← rdU64 d 904
  let w1 ← rdU64 d 912
  let w2 ← rdU64 d 920
  let w3 ← rdU64 d 928
  let w4 ← rdU64 d 936
  let w5 ← rdU64 d 944
  let w6 ← rdU64 d 952
  let w7 ← rdU64 d 960
  let w8 ← rdU64 d 968
  let w9 ← rdU64 d 976
  let w10 ← rdU64 d 984
  let w11 ← rdU64 d 992
  let w12 ← rdU64 d 1000
  let w13 ← rdU64 d 1008
  let w14 ← rdU64 d 1016
  let w15 ← rdU64 d 1024
  pure [w0, w1, w2, w3, w4, w5, w6, w7, w8, w9, w10, w11, w12, w13, w14, w15]

/-- The field walk of `RaydiumLiquidityPoolCLMM::get_liquidity_pool_info`
after the length precheck.  Cursor thread: bump at 8, seven identifiers from
9, decimals 233 and 234, tick spacing 235, liquidity 237, sqrt price 253,
tick 269, two u16 padding reads 273 and 275, fee growth 277 and 293,
protocol fees 309 and 317, four u128 swap totals from 325, status 389, a
7-byte padding skip to 397, three reward sub-records at 397, 566, 735, the
16-word bitmap from 904, eight u64 fields from 1032 to 1096, then a
448-byte reserved skip to 1544 and the final offset comparison against the
input length. -/
def clmmWalk (d : List Nat) : Except DecodeErr RaydiumLiquidityPoolCLMMData := do
  let bump ← rdU8 d 8
  let amm_config ← rdPubkey d 9
  let owner ← rdPubkey d 41
  let token_mint_0 ← rdPubkey d 73
  let token_mint_1 ← rdPubkey d 105
  let token_vault_0 ← rdPubkey d 137
  let token_vault_1 ← rdPubkey d 169
  let observation_key ← rdPubkey d 201
  let mint_decimals_0 ← rdU8 d 233
  let mint_decimals_1 ← rdU8 d 234
  let tick_spacing ← rdU16 d 235
  let liquidity ← rdU128 d 237
  let sqrt_price_x64 ← rdU128 d 253
  let tick_current ← rdI32 d 269
  let _padding3 ← rdU16 d 273
  let _padding4 ← rdU16 d 275
  let fee_growth_global_0_x64 ← rdU128 d 277
  let fee_growth_global_1_x64 ← rdU128 d 293
  let protocol_fees_token_0 ← rdU64 d 309
  let protocol_fees_token_1 ← rdU64 d 317
  let swap_in_amount_token_0 ← rdU128 d 325
  let swap_out_amount_token_1 ← rdU128 d 341
  let swap_in_amount_token_1 ← rdU128 d 357
  let swap_out_amount_token_0 ← rdU128 d 373
  let status ← rdU8 d 389
  let reward0 ← rdRewardInfo d 397
  let reward1 ← rdRewardInfo d 566
  let reward2 ← rdRewardInfo d 735
  let tick_array_bitmap ← rdTickArrayBitmap d
  let total_fees_token_0 ← rdU64 d 1032
  let total_fees_claimed_token_0 ← rdU64 d 1040
  let total_fees_token_1 ← rdU64 d 1048
  let total_fees_claimed_token_1 ← rdU64 d 1056
  let fund_fees_token_0 ← rdU64 d 1064
  let fund_fees_token_1 ← rdU64 d 1072
  let open_time ← rdU64 d 1080
  let recent_epoch ← rdU64 d 1088
  let offset := 1096 + (24 * 8 + 32 * 8)
  if offset ≠ d.length then
    throw (.offsetMismatch d.length offset)
  pure {
    bump := bump
    amm_config := amm_config
    owner := owner
    token_mint_0 := token_mint_0
    token_mint_1 := token_mint_1
    token_vault_0 := token_vault_0
    token_vault_1 := token_vault_1
    observation_key := observation_key
    mint_decimals_0 := mint_decimals_0
    mint_decimals_1 := mint_decimals_1
    tick_spacing := tick_spacing
    liquidity := liquidity
    sqrt_price_x64 := sqrt_price_x64
    tick_current := tick_current
    fee_growth_global_0_x64 := fee_growth_global_0_x64
    fee_growth_global_1_x64 := fee_growth_global_1_x64
    protocol_fees_token_0 := protocol_fees_token_0
    protocol_fees_token_1 := protocol_fees_token_1
    swap_in_amount_token_0 := swap_in_amount_token_0
    swap_out_amount_token_1 := swap_out_amount_token_1
    swap_in_amount_token_1 := swap_in_amount_token_1
    swap_out_amount_token_0 := swap_out_amount_token_0
    status := status
    reward_infos := [reward0, reward1, reward2]
    tick_array_bitmap := tick_array_bitmap
    total_fees_token_0 := total_fees_token_0
    total_fees_claimed_token_0 := total_fees_claimed_token_0
    total_fees_token_1 := total_fees_token_1
    total_fees_claimed_token_1 := total_fees_claimed_token_1
    fund_fees_token_0 := fund_fees_token_0
    fund_fees_token_1 := fund_fees_token_1
    open_time := open_time
    recent_epoch := recent_epoch }

namespace RaydiumLiquidityPoolCLMM

/-- Embeds `RaydiumLiquidityPoolCLMM::get_liquidity_pool_info`: reject any
length other than 1544 with the size-mismatch error naming both values, then
run the walk. -/
def get_liquidity_pool_info (d : List Nat) : Except DecodeErr RaydiumLiquidityPoolCLMMData :=
  if d.length ≠ RAYDIUM_LIQUIDITY_POOL_CLMM_DATA_SIZE then
    .error (.sizeMismatch RAYDIUM_LIQUIDITY_POOL_CLMM_DATA_SIZE d.length)
  else
    clmmWalk d

end RaydiumLiquidityPoolCLMM

namespace RaydiumLiquidityPoolCLMMData

/-- Embeds the computation of `RaydiumLiquidityPoolCLMMData::get_price` (the
unused client argument dropped, the always-`Ok` wrapper unwrapped): normalize
the packed square-root price by `2 ^ 64` and square it. -/
def get_price_core (p : RaydiumLiquidityPoolCLMMData) : ℚ :=
  let sqrt_price : ℚ := (p.sqrt_price_x64 : ℚ) / (2 : ℚ) ^ 64
  sqrt_price * sqrt_price

/-- Embeds `RaydiumLiquidityPoolCLMMData::get_tick_price`:
`1.0001_f64.powf(tick as f64)`.  The exponent is the decoded i32 tick, so the
f64 power routine is idealised to its exact value at integral exponents: the
rational `1.0001` raised to the integer tick power. -/
def get_tick_price (p : RaydiumLiquidityPoolCLMMData) : ℚ :=
  (1.0001 : ℚ) ^ p.tick_current

/-- Embeds `RaydiumLiquidityPoolCLMMData::get_token_0_amount`: 0 when
liquidity is 0, else `liquidity / (sqrt_price_x64 / 2^64)`. -/
def get_token_0_amount (p : RaydiumLiquidityPoolCLMMData) : ℚ :=
  if p.liquidity = 0 then 0
  else
    let sqrt_price : ℚ := (p.sqrt_price_x64 : ℚ) / (2 : ℚ) ^ 64
    (p.liquidity : ℚ) / sqrt_price

/-- Embeds `RaydiumLiquidityPoolCLMMData::get_token_1_amount`: 0 when
liquidity is 0, else `liquidity * (sqrt_price_x64 / 2^64)`. -/
def get_token_1_amount (p : RaydiumLiquidityPoolCLMMData) : ℚ :=
  if p.liquidity = 0 then 0
  else
    let sqrt_price : ℚ := (p.sqrt_price_x64 : ℚ) / (2 : ℚ) ^ 64
    (p.liquidity : ℚ) * sqrt_price

end RaydiumLiquidityPoolCLMMData

/-- The reward sub-record decoded from zero bytes. -/
def rewardInfoZero : RewardInfo where
  reward_state := 0
  open_time := 0
  end_time := 0
  last_update_time := 0
  emissions_per_second_x64 := 0
  reward_total_emissioned := 0
  reward_claimed := 0
  token_mint := Pubkey.zero
  token_vault := Pubkey.zero
  authority := Pubkey.zero
  reward_growth_global_x64 := 0

/-- The record decoded from a zero-filled 1544-byte CLMM blob. -/
def clmmZeroData : RaydiumLiquidityPoolCLMMData where
  bump := 0
  amm_config := Pubkey.zero
  owner := Pubkey.zero
  token_mint_0 := Pubkey.zero
  token_mint_1 := Pubkey.zero
  token_vault_0 := Pubkey.zero
  token_vault_1 := Pubkey.zero
  observation_key := Pubkey.zero
  mint_decimals_0 := 0
  mint_decimals_1 := 0
  tick_spacing := 0
  liquidity := 0
  sqrt_price_x64 := 0
  tick_current := 0
  fee_growth_global_0_x64 := 0
  fee_growth_global_1_x64 := 0
  protocol_fees_token_0 := 0
  protocol_fees_token_1 := 0
  swap_in_amount_token_0 := 0
  swap_out_amount_token_1 := 0
  swap_in_amount_token_1 := 0
  swap_out_amount_token_0 := 0
  status := 0
  reward_infos := [rewardInfoZero, rewardInfoZero, rewardInfoZero]
  tick_array_bitmap := List.replicate 16 0
  total_fees_token_0 := 0
  total_fees_claimed_token_0 := 0
  total_fees_token_1 := 0
  total_fees_claimed_token_1 := 0
  fund_fees_token_0 := 0
  fund_fees_token_1 := 0
  open_time := 0
  recent_epoch := 0

/-- Typed record produced by `RaydiumLiquidityPoolV4::get_liquidity_pool_info`. -/
structure RaydiumLiquidityPoolData where
  status : Nat
  nonce : Nat
  max_order : Nat
  depth : Nat
  base_decimal : Nat
  quote_decimal : Nat
  state : Nat
  reset_flag : Nat
  min_size : Nat
  vol_max_cut_ratio : Nat
  amount_wave_ratio : Nat
  base_lot_size : Nat
  quote_lot_size : Nat
  min_price_multiplier : Nat
  max_price_multiplier : Nat
  system_decimal_value : Nat
  min_separate_numerator : Nat
  min_separate_denominator : Nat
  trade_fee_numerator : Nat
  trade_fee_denominator : Nat
  pnl_numerator : Nat
  pnl_denominator : Nat
  swap_fee_numerator : Nat
  swap_fee_denominator : Nat
  base_need_take_pnl : Nat
  quote_need_take_pnl : Nat
  quote_total_pnl : Nat
  base_total_pnl : Nat
  pool_open_time : Nat
  punish_pc_amount : Nat
  punish_coin_amount : Nat
  orderbook_to_init_time : Nat
  swap_base_in_amount : Nat
  swap_quote_out_amount : Nat
  swap_base2_quote_fee : Nat
  swap_quote_in_amount : Nat
  swap_base_out_amount : Nat
  swap_quote2_base_fee : Nat
  base_vault : Pubkey
  quote_vault : Pubkey
  base_mint : Pubkey
  quote_mint : Pubkey
  lp_mint : Pubkey
  open_orders : Pubkey
  market_id : Pubkey
  market_program_id : Pubkey
  target_orders : Pubkey
  withdraw_queue : Pubkey
  lp_vault : Pubkey
  owner : Pubkey
  lp_reserve : Nat
  deriving DecidableEq, Repr

/-- Declared total size of the v4 pool account blob. -/
def RAYDIUM_LIQUIDITY_POOL_V4_DATA_SIZE : Nat := 752

/-- A little-endian u64 field of the `repr(C)` v4 struct, as exposed by the
`bytemuck::from_bytes` reinterpretation of a length-checked 752-byte blob
(in-bounds for every field offset used below). -/
def rawU64 (d : List Nat) (offset : Nat) : Nat :=
  leNat ((d.drop offset).take 8)

/-- A 32-byte identifier field of the reinterpreted v4 struct. -/
def rawPubkey (d : List Nat) (offset : Nat) : Pubkey :=
  (d.drop offset).take 32

namespace RaydiumLiquidityPoolV4

/-- Embeds `RaydiumLiquidityPoolV4::get_liquidity_pool_info`.  The source
checks the length twice (exact 752, then at least `size_of::<Self>()` = 752),
reinterprets the bytes as the `repr(C)` struct (there is no discriminator and
no cursor walk), reads the six swap totals manually through the
`solana_tool` guarded readers at offsets 256, 272, 288, 296, 312, 328 (their
modelled panic region lifted by `readerPanic`, unreachable at these constant
offsets), and assembles the record through the accessor methods (the eight
leading fields are truncated `as u8`, hence `% 256`).  Field offsets follow the `repr(C)`
layout: 32 u64 scalars at 0..256, six placeholder u64 at 256..304, a 32-byte
padding region at 304, twelve identifiers from 336 (`owner` at 688, after
`lp_vault`, per the declaration order, not the drifted field comments), and
`lp_reserve` at 720. -/
def get_liquidity_pool_info (d : List Nat) : Except DecodeErr RaydiumLiquidityPoolData :=
  if d.length ≠ RAYDIUM_LIQUIDITY_POOL_V4_DATA_SIZE then
    .error .v4SizeMismatch
  else if d.length < RAYDIUM_LIQUIDITY_POOL_V4_DATA_SIZE then
    .error .v4LengthError
  else do
    let swap_base_in_amount ← readerPanic (reader.r_u128 d 256)
    let swap_quote_out_amount ← readerPanic (reader.r_u128 d 272)
    let swap_base2_quote_fee ← readerPanic (reader.r_u64 d 288)
    let swap_quote_in_amount ← readerPanic (reader.r_u128 d 296)
    let swap_base_out_amount ← readerPanic (reader.r_u128 d 312)
    let swap_quote2_base_fee ← readerPanic (reader.r_u64 d 328)
    pure {
      status := rawU64 d 0 % 256
      nonce := rawU64 d 8 % 256
      max_order := rawU64 d 16 % 256
      depth := rawU64 d 24 % 256
      base_decimal := rawU64 d 32 % 256
      quote_decimal := rawU64 d 40 % 256
      state := rawU64 d 48 % 256
      reset_flag := rawU64 d 56 % 256
      min_size := rawU64 d 64
      vol_max_cut_ratio := rawU64 d 72
      amount_wave_ratio := rawU64 d 80
      base_lot_size := rawU64 d 88
      quote_lot_size := rawU64 d 96
      min_price_multiplier := rawU64 d 104
      max_price_multiplier := rawU64 d 112
      system_decimal_value := rawU64 d 120
      min_separate_numerator := rawU64 d 128
      min_separate_denominator := rawU64 d 136
      trade_fee_numerator := rawU64 d 144
      trade_fee_denominator := rawU64 d 152
      pnl_numerator := rawU64 d 160
      pnl_denominator := rawU64 d 168
      swap_fee_numerator := rawU64 d 176
      swap_fee_denominator := rawU64 d 184
      base_need_take_pnl := rawU64 d 192
      quote_need_take_pnl := rawU64 d 200
      quote_total_pnl := rawU64 d 208
      base_total_pnl := rawU64 d 216
      pool_open_time := rawU64 d 224
      punish_pc_amount := rawU64 d 232
      punish_coin_amount := rawU64 d 240
      orderbook_to_init_time := rawU64 d 248
      swap_base_in_amount := swap_base_in_amount
      swap_quote_out_amount := swap_quote_out_amount
      swap_base2_quote_fee := swap_base2_quote_fee
      swap_quote_in_amount := swap_quote_in_amount
      swap_base_out_amount := swap_base_out_amount
      swap_quote2_base_fee := swap_quote2_base_fee
      base_vault := rawPubkey d 336
      quote_vault := rawPubkey d 368
      base_mint := rawPubkey d 400
      quote_mint := rawPubkey d 432
      lp_mint := rawPubkey d 464
      open_orders := rawPubkey d 496
      market_id := rawPubkey d 528
      market_program_id := rawPubkey d 560
      target_orders := rawPubkey d 592
      withdraw_queue := rawPubkey d 624
      lp_vault := rawPubkey d 656
      owner := rawPubkey d 688
      lp_reserve := rawU64 d 720 }

end RaydiumLiquidityPoolV4

namespace RaydiumLiquidityPoolData

/-- Embeds the pure tail of `RaydiumLiquidityPoolData::get_price` once the
two externally fetched vault balances are in hand (the source unwraps both
lookups and divides the normalized amounts): the quote balance normalized by
`quote_decimal` over the base balance normalized by `base_decimal`. -/
def get_price_core (p : RaydiumLiquidityPoolData)
    (base_balance quote_balance : Nat) : ℚ :=
  converBalance quote_balance p.quote_decimal / converBalance base_balance p.base_decimal

end RaydiumLiquidityPoolData

/-- The record decoded from a zero-filled 752-byte v4 blob. -/
def v4ZeroData : RaydiumLiquidityPoolData where
  status := 0
  nonce := 0
  max_order := 0
  depth := 0
  base_decimal := 0
  quote_decimal := 0
  state := 0
  reset_flag := 0
  min_size := 0
  vol_max_cut_ratio := 0
  amount_wave_ratio := 0
  base_lot_size := 0
  quote_lot_size := 0
  min_price_multiplier := 0
  max_price_multiplier := 0
  system_decimal_value := 0
  min_separate_numerator := 0
  min_separate_denominator := 0
  trade_fee_numerator := 0
  trade_fee_denominator := 0
  pnl_numerator := 0
  pnl_denominator := 0
  swap_fee_numerator := 0
  swap_fee_denominator := 0
  base_need_take_pnl := 0
  quote_need_take_pnl := 0
  quote_total_pnl := 0
  base_total_pnl := 0
  pool_open_time := 0
  punish_pc_amount := 0
  punish_coin_amount := 0
  orderbook_to_init_time := 0
  swap_base_in_amount := 0
  swap_quote_out_amount := 0
  swap_base2_quote_fee := 0
  swap_quote_in_amount := 0
  swap_base_out_amount := 0
  swap_quote2_base_fee := 0
  base_vault := Pubkey.zero
  quote_vault := Pubkey.zero
  base_mint := Pubkey.zero
  quote_mint := Pubkey.zero
  lp_mint := Pubkey.zero
  open_orders := Pubkey.zero
  market_id := Pubkey.zero
  market_program_id := Pubkey.zero
  target_orders := Pubkey.zero
  withdraw_queue := Pubkey.zero
  lp_vault := Pubkey.zero
  owner := Pubkey.zero
  lp_reserve := 0

-- Equality on `Except` results of decoding is decidable (used by the
-- concrete evaluations below).
deriving instance DecidableEq for Except

/-- Success test on an explicit `ok`. -/
@[simp] theorem isOkE_ok {ε α : Type} (a : α) : isOkE (Except.ok a : Except ε α) = true := rfl

/-- Success test on an explicit `error`. -/
@[simp] theorem isOkE_error {ε α : Type} (e : ε) : isOkE (Except.error e : Except ε α) = false := rfl

/-- Success test on `pure`. -/
@[simp] theorem isOkE_pure {ε α : Type} (a : α) : isOkE (pure a : Except ε α) = true := rfl

/-- A computation whose success test holds carries a success value. -/
theorem exists_ok_of_isOkE {ε α : Type} {x : Except ε α} (h : isOkE x = true) :
    ∃ r, x = .ok r := by
  cases x with
  | ok a => exact ⟨a, rfl⟩
  | error e => exact absurd h (by simp [isOkE])

/-- C2: for every pool variant (752, 637, 1544 and 429 bytes), decoding a
buffer of any other length returns that variant's size-mismatch error (the
launchpad, CPMM and CLMM errors name the expected and actual lengths; the v4
size-mismatch message carries no values), never a differently-shaped error
and never a panic: the walk is not entered at all. -/
theorem wrong_length_size_mismatch :
    (∀ d : List Nat, d.length ≠ 429 →
      LaunchpadPool.get_liquidity_pool_info d = .error (.sizeMismatch 429 d.length)) ∧
    (∀ d : List Nat, d.length ≠ 637 →
      RaydiumLiquidityPoolCPMM.get_liquidity_pool_info d = .error (.sizeMismatch 637 d.length)) ∧
    (∀ d : List Nat, d.length ≠ 1544 →
      RaydiumLiquidityPoolCLMM.get_liquidity_pool_info d = .error (.sizeMismatch 1544 d.length)) ∧
    (∀ d : List Nat, d.length ≠ 752 →
      RaydiumLiquidityPoolV4.get_liquidity_pool_info d = .error .v4SizeMismatch) := by
  refine ⟨fun d h => ?_, fun d h => ?_, fun d h => ?_, fun d h => ?_⟩
  · simp [LaunchpadPool.get_liquidity_pool_info, LAUNCHPAD_POOL_STATE_DATA_SIZE, h]
  · simp [RaydiumLiquidityPoolCPMM.get_liquidity_pool_info,
      RAYDIUM_LIQUIDITY_POOL_CPMM_DATA_SIZE, h]
  · simp [RaydiumLiquidityPoolCLMM.get_liquidity_pool_info,
      RAYDIUM_LIQUIDITY_POOL_CLMM_DATA_SIZE, h]
  · simp [RaydiumLiquidityPoolV4.get_liquidity_pool_info,
      RAYDIUM_LIQUIDITY_POOL_V4_DATA_SIZE, h]

/-- Witness for C2 at the empty buffer (length 0, wrong for all variants). -/
theorem wrong_length_size_mismatch_witness :
    LaunchpadPool.get_liquidity_pool_info [] = .error (.sizeMismatch 429 0) ∧
    RaydiumLiquidityPoolCPMM.get_liquidity_pool_info [] = .error (.sizeMismatch 637 0) ∧
    RaydiumLiquidityPoolCLMM.get_liquidity_pool_info [] = .error (.sizeMismatch 1544 0) ∧
    RaydiumLiquidityPoolV4.get_liquidity_pool_info [] = .error .v4SizeMismatch :=
  ⟨wrong_length_size_mismatch.1 [] (by decide),
   wrong_length_size_mismatch.2.1 [] (by decide),
   wrong_length_size_mismatch.2.2.1 [] (by decide),
   wrong_length_size_mismatch.2.2.2 [] (by decide)⟩

set_option maxRecDepth 1000000 in
/-- C3: for every variant, decoding a zero-filled buffer of exactly the
declared size succeeds and yields the record whose every integer field is 0,
every identifier is all-zero, and every enum-coded field is the code-0
variant (`Fund`, `AMM`, `SPLTokenProgram`/`SPLTokenProgram`, `QuoteToken`;
the CPMM boolean flag is `false`). -/
theorem zero_buffer_decodes_zero_record :
    LaunchpadPool.get_liquidity_pool_info (List.replicate 429 0) = .ok launchpadZeroData ∧
    RaydiumLiquidityPoolCPMM.get_liquidity_pool_info (List.replicate 637 0) = .ok cpmmZeroData ∧
    RaydiumLiquidityPoolCLMM.get_liquidity_pool_info (List.replicate 1544 0) = .ok clmmZeroData ∧
    RaydiumLiquidityPoolV4.get_liquidity_pool_info (List.replicate 752 0) = .ok v4ZeroData :=
  ⟨by decide, by decide, by decide, by decide⟩

set_option maxRecDepth 1000000 in
/-- C9: the CPMM, CLMM and v4 decoders accept every input of exactly their
declared size (no enum-rejection and no offset-mismatch path is reachable
there), while the launchpad decoder can reject an exactly-sized input (e.g.
with status byte 3). -/
theorem exact_size_decode_success :
    (∀ d : List Nat, d.length = 637 →
      isOkE (RaydiumLiquidityPoolCPMM.get_liquidity_pool_info d) = true) ∧
    (∀ d : List Nat, d.length = 1544 →
      isOkE (RaydiumLiquidityPoolCLMM.get_liquidity_pool_info d) = true) ∧
    (∀ d : List Nat, d.length = 752 →
      isOkE (RaydiumLiquidityPoolV4.get_liquidity_pool_info d) = true) ∧
    (∃ d : List Nat, d.length = 429 ∧
      isOkE (LaunchpadPool.get_liquidity_pool_info d) = false) := by
  refine ⟨fun d h => ?_, fun d h => ?_, fun d h => ?_,
    ⟨(List.replicate 429 0).set 17 3, by decide, by decide⟩⟩
  · simp [RaydiumLiquidityPoolCPMM.get_liquidity_pool_info,
      RAYDIUM_LIQUIDITY_POOL_CPMM_DATA_SIZE, cpmmWalk, rdPubkey, rdU8, rdU64, rdBytes, h]
  · simp [RaydiumLiquidityPoolCLMM.get_liquidity_pool_info,
      RAYDIUM_LIQUIDITY_POOL_CLMM_DATA_SIZE, clmmWalk, rdRewardInfo, rdTickArrayBitmap,
      rdPubkey, rdU8, rdU16, rdU64, rdU128, rdI32, rdBytes, h]
  · simp [RaydiumLiquidityPoolV4.get_liquidity_pool_info,
      RAYDIUM_LIQUIDITY_POOL_V4_DATA_SIZE, readerPanic, reader.r_u64, reader.r_u128, h]

set_option maxRecDepth 1000000 in
/-- Witness for C9 at concrete exactly-sized buffers. -/
theorem exact_size_decode_success_witness :
    isOkE (RaydiumLiquidityPoolCPMM.get_liquidity_pool_info (List.replicate 637 1)) = true ∧
    isOkE (RaydiumLiquidityPoolCLMM.get_liquidity_pool_info (List.replicate 1544 1)) = true ∧
    isOkE (RaydiumLiquidityPoolV4.get_liquidity_pool_info (List.replicate 752 1)) = true :=
  ⟨exact_size_decode_success.1 (List.replicate 637 1) (by decide),
   exact_size_decode_success.2.1 (List.replicate 1544 1) (by decide),
   exact_size_decode_success.2.2.1 (List.replicate 752 1) (by decide)⟩

set_option maxRecDepth 1000000 in
/-- C1 (amended): the final-offset self-check that errors naming the expected
and actual offsets is present in the launchpad and CLMM field walks (on a
one-byte-longer buffer each reports the offset mismatch with both values),
but the CPMM field walk has no such check (on a one-byte-longer buffer it
completes in `Ok`), and the v4 decoder has no cursor walk at all: its only
outcomes are the two length errors and success, so no offset mismatch can be
reported. -/
theorem final_offset_selfcheck_per_variant :
    launchpadWalk (List.replicate 430 0) = .error (.offsetMismatch 430 429) ∧
    clmmWalk (List.replicate 1545 0) = .error (.offsetMismatch 1545 1544) ∧
    cpmmWalk (List.replicate 638 0) = .ok cpmmZeroData ∧
    (∀ d : List Nat,
      (∃ r, RaydiumLiquidityPoolV4.get_liquidity_pool_info d = .ok r) ∨
      RaydiumLiquidityPoolV4.get_liquidity_pool_info d = .error .v4SizeMismatch ∨
      RaydiumLiquidityPoolV4.get_liquidity_pool_info d = .error .v4LengthError) := by
  refine ⟨by decide, by decide, by decide, fun d => ?_⟩
  by_cases h : d.length = 752
  · left
    apply exists_ok_of_isOkE
    simp [RaydiumLiquidityPoolV4.get_liquidity_pool_info,
      RAYDIUM_LIQUIDITY_POOL_V4_DATA_SIZE, readerPanic, reader.r_u64, reader.r_u128, h]
  · right; left
    simp [RaydiumLiquidityPoolV4.get_liquidity_pool_info,
      RAYDIUM_LIQUIDITY_POOL_V4_DATA_SIZE, h]

set_option maxRecDepth 1000000 in
/-- Counterexample to C1 as stated: the CPMM field walk, run on a buffer one
byte longer than the declared 637-byte size (so that a final-offset
comparison would have to fail), completes successfully instead of reporting
any offset mismatch — the self-check is absent from this variant. -/
theorem cpmm_walk_lacks_final_offset_check :
    cpmmWalk (List.replicate 638 0) = .ok cpmmZeroData ∧ (638 : Nat) ≠ 637 :=
  ⟨by decide, by decide⟩

/-- C6: the launchpad enum classifiers map codes 0..2 to Fund/Migrate/Trade
and 0..1 to AMM/CPSWAP; a status byte 3 or a migrate-type byte 2 (one past
the highest known code) makes the whole decode of an exactly-sized buffer
fail with the unknown-code error carrying the offending raw byte value. -/
theorem launchpad_enum_classification :
    poolStatusOfByte 0 = .ok .Fund ∧
    poolStatusOfByte 1 = .ok .Migrate ∧
    poolStatusOfByte 2 = .ok .Trade ∧
    migrateTypeOfByte 0 = .ok .AMM ∧
    migrateTypeOfByte 1 = .ok .CPSWAP ∧
    poolStatusOfByte 3 = .error (.invalidPoolStatus 3) ∧
    migrateTypeOfByte 2 = .error (.invalidMigrateType 2) ∧
    (∀ d : List Nat, d.length = 429 → d[17]? = some 3 →
      LaunchpadPool.get_liquidity_pool_info d = .error (.invalidPoolStatus 3)) ∧
    (∀ d : List Nat, d.length = 429 → d[17]? = some 0 → d[20]? = some 2 →
      LaunchpadPool.get_liquidity_pool_info d = .error (.invalidMigrateType 2)) := by
  refine ⟨rfl, rfl, rfl, rfl, rfl, rfl, rfl, fun d h h17 => ?_, fun d h h17 h20 => ?_⟩
  · simp [LaunchpadPool.get_liquidity_pool_info, LAUNCHPAD_POOL_STATE_DATA_SIZE,
      launchpadWalk, rdU8, rdU64, rdPubkey, rdBytes, h,
      List.getD_eq_getElem?_getD, h17, poolStatusOfByte]
  · simp [LaunchpadPool.get_liquidity_pool_info, LAUNCHPAD_POOL_STATE_DATA_SIZE,
      launchpadWalk, rdU8, rdU64, rdPubkey, rdBytes, h,
      List.getD_eq_getElem?_getD, h17, h20, poolStatusOfByte, migrateTypeOfByte]

set_option maxRecDepth 1000000 in
/-- Witness for C6: concrete 429-byte buffers with status byte 3
(respectively migrate-type byte 2) are rejected with the raw byte in the
error. -/
theorem launchpad_enum_classification_witness :
    LaunchpadPool.get_liquidity_pool_info ((List.replicate 429 0).set 17 3) =
      .error (.invalidPoolStatus 3) ∧
    LaunchpadPool.get_liquidity_pool_info ((List.replicate 429 0).set 20 2) =
      .error (.invalidMigrateType 2) :=
  ⟨launchpad_enum_classification.2.2.2.2.2.2.2.1 ((List.replicate 429 0).set 17 3)
      (by decide) (by decide),
   launchpad_enum_classification.2.2.2.2.2.2.2.2 ((List.replicate 429 0).set 20 2)
      (by decide) (by decide) (by decide)⟩

/-- C10: the launchpad decoder reads only bytes 8..366 of an exactly-sized
429-byte buffer: two inputs that agree there (so may differ only in the
8-byte discriminator and in the reserved tail from byte 367 on) decode to
the same result — both succeed with the same record or fail with the same
error. -/
theorem launchpad_decode_ignores_discriminator_and_tail
    (d1 d2 : List Nat) (h1 : d1.length = 429) (h2 : d2.length = 429)
    (agree : ∀ i : Nat, 8 ≤ i → i < 367 → d1[i]? = d2[i]?) :
    LaunchpadPool.get_liquidity_pool_info d1 = LaunchpadPool.get_liquidity_pool_info d2 := by
  have e2 : ∀ o w : Nat, 8 ≤ o → o + w ≤ 367 → (d1.drop o).take w = (d2.drop o).take w := by
    intro o w ho hw
    apply List.ext_getElem?
    intro j
    rw [List.getElem?_take, List.getElem?_take]
    by_cases hj : j < w
    · simp only [hj, if_true, List.getElem?_drop]
      exact agree (o + j) (by omega) (by omega)
    · simp [hj]
  have e1 : ∀ o : Nat, 8 ≤ o → o < 367 → d1.getD o 0 = d2.getD o 0 := by
    intro o ho hw
    rw [List.getD_eq_getElem?_getD, List.getD_eq_getElem?_getD, agree o ho hw]
  simp only [LaunchpadPool.get_liquidity_pool_info, LAUNCHPAD_POOL_STATE_DATA_SIZE,
    launchpadWalk, rdU8, rdU64, rdPubkey, rdBytes, h1, h2]
  rw [e2 8 8 (by norm_num) (by norm_num),
    e1 16 (by norm_num) (by norm_num), e1 17 (by norm_num) (by norm_num),
    e1 18 (by norm_num) (by norm_num), e1 19 (by norm_num) (by norm_num),
    e1 20 (by norm_num) (by norm_num),
    e2 21 8 (by norm_num) (by norm_num), e2 29 8 (by norm_num) (by norm_num),
    e2 37 8 (by norm_num) (by norm_num), e2 45 8 (by norm_num) (by norm_num),
    e2 53 8 (by norm_num) (by norm_num), e2 61 8 (by norm_num) (by norm_num),
    e2 69 8 (by norm_num) (by norm_num), e2 77 8 (by norm_num) (by norm_num),
    e2 85 8 (by norm_num) (by norm_num), e2 93 8 (by norm_num) (by norm_num),
    e2 101 8 (by norm_num) (by norm_num), e2 109 8 (by norm_num) (by norm_num),
    e2 117 8 (by norm_num) (by norm_num), e2 125 8 (by norm_num) (by norm_num),
    e2 133 8 (by norm_num) (by norm_num),
    e2 141 32 (by norm_num) (by norm_num), e2 173 32 (by norm_num) (by norm_num),
    e2 205 32 (by norm_num) (by norm_num), e2 237 32 (by norm_num) (by norm_num),
    e2 269 32 (by norm_num) (by norm_num), e2 301 32 (by norm_num) (by norm_num),
    e2 333 32 (by norm_num) (by norm_num),
    e1 365 (by norm_num) (by norm_num), e1 366 (by norm_num) (by norm_num)]

set_option maxRecDepth 1000000 in
/-- Witness for C10: flipping only a discriminator byte (index 0) in one
input and only a tail byte (index 428) in the other leaves the decode result
identical. -/
theorem launchpad_decode_ignores_discriminator_and_tail_witness :
    LaunchpadPool.get_liquidity_pool_info ((List.replicate 429 0).set 0 1) =
      LaunchpadPool.get_liquidity_pool_info ((List.replicate 429 0).set 428 5) := by
  apply launchpad_decode_ignores_discriminator_and_tail
  · decide
  · decide
  · intro i h8 h367
    rw [List.getElem?_set_ne (by omega), List.getElem?_set_ne (by omega)]

/-- C4 (amended): for a schedule whose `start + cliff + unlock` sum stays
below `2 ^ 64` (no u64 wraparound), the unlock amount is 0 strictly before
`start + cliff`, equals the total locked amount at or after
`start + cliff + unlock`, is bounded by the total locked amount everywhere,
and is monotonically non-decreasing in the current time (the middle branch's
f64 arithmetic taken exactly over ℚ). -/
theorem vesting_unlock_clamped_monotone (p : LaunchpadPoolData)
    (hov : p.vesting_schedule.start_time + p.vesting_schedule.cliff_period
      + p.vesting_schedule.unlock_period < LaunchpadPoolData.U64MOD) :
    (∀ t, t < p.vesting_schedule.start_time + p.vesting_schedule.cliff_period →
      p.get_unlocked_amount t = 0) ∧
    (∀ t, p.vesting_schedule.start_time + p.vesting_schedule.cliff_period
        + p.vesting_schedule.unlock_period ≤ t →
      p.get_unlocked_amount t = p.vesting_schedule.total_locked_amount) ∧
    (∀ t, p.get_unlocked_amount t ≤ p.vesting_schedule.total_locked_amount) ∧
    (∀ t1 t2, t1 ≤ t2 → p.get_unlocked_amount t1 ≤ p.get_unlocked_amount t2) := by
  set s := p.vesting_schedule.start_time with hs
  set c := p.vesting_schedule.cliff_period with hc
  set u := p.vesting_schedule.unlock_period with hu
  set T := p.vesting_schedule.total_locked_amount with hT
  have ha : (s + c) % LaunchpadPoolData.U64MOD = s + c := Nat.mod_eq_of_lt (by omega)
  have hb : (s + c + u) % LaunchpadPoolData.U64MOD = s + c + u := Nat.mod_eq_of_lt (by omega)
  have hf : ∀ t, p.get_unlocked_amount t =
      (if T = 0 then 0
       else if t < s + c then 0
       else if s + c + u ≤ t then T
       else LaunchpadPoolData.f64AsU64
         ((T : ℚ) * min (((t - (s + c) : Nat) : ℚ) / (u : ℚ)) 1)) := by
    intro t
    simp only [LaunchpadPoolData.get_unlocked_amount, ← hs, ← hc, ← hu, ← hT, ha, hb, ge_iff_le]
  have key : ∀ r : ℚ, LaunchpadPoolData.f64AsU64 ((T : ℚ) * min r 1) ≤ T := by
    intro r
    unfold LaunchpadPoolData.f64AsU64
    have h1 : (T : ℚ) * min r 1 ≤ (T : ℚ) :=
      mul_le_of_le_one_right (by positivity) (min_le_right r 1)
    have h2 : ⌊(T : ℚ) * min r 1⌋ ≤ (T : Int) := by
      refine le_trans (Int.floor_le_floor h1) ?_
      simp
    exact le_trans (min_le_left _ _) (Int.toNat_le.mpr h2)
  have mono_mid : ∀ e1 e2 : Nat, e1 ≤ e2 → 0 < u →
      LaunchpadPoolData.f64AsU64 ((T : ℚ) * min ((e1 : ℚ) / (u : ℚ)) 1) ≤
      LaunchpadPoolData.f64AsU64 ((T : ℚ) * min ((e2 : ℚ) / (u : ℚ)) 1) := by
    intro e1 e2 he hupos
    unfold LaunchpadPoolData.f64AsU64
    have hq : (T : ℚ) * min ((e1 : ℚ) / (u : ℚ)) 1 ≤ (T : ℚ) * min ((e2 : ℚ) / (u : ℚ)) 1 := by
      have hdiv : (e1 : ℚ) / (u : ℚ) ≤ (e2 : ℚ) / (u : ℚ) := by
        gcongr
      exact mul_le_mul_of_nonneg_left (min_le_min hdiv le_rfl) (by positivity)
    exact min_le_min (Int.toNat_le_toNat (Int.floor_le_floor hq)) le_rfl
  refine ⟨?_, ?_, ?_, ?_⟩
  · intro t ht
    rw [hf]
    by_cases h0 : T = 0 <;> simp [h0, ht]
  · intro t ht
    rw [hf]
    by_cases h0 : T = 0
    · simp [h0]
    · have h1 : ¬ t < s + c := by omega
      simp [h0, h1, ht]
  · intro t
    rw [hf]
    by_cases h0 : T = 0
    · simp [h0]
    · by_cases h1 : t < s + c
      · simp [h0, h1]
      · by_cases h2 : s + c + u ≤ t
        · simp [h0, h1, h2]
        · simp only [h0, h1, h2, if_false, if_true]
          exact key _
  · intro t1 t2 ht
    rw [hf, hf]
    by_cases h0 : T = 0
    · simp [h0]
    · by_cases h1 : t1 < s + c
      · simp only [h0, if_false]
        simp only [h1, if_true]
        exact Nat.zero_le _
      · have h1b : ¬ t2 < s + c := by omega
        by_cases h2 : s + c + u ≤ t1
        · have h2b : s + c + u ≤ t2 := by omega
          simp [h0, h1, h1b, h2, h2b]
        · by_cases h3 : s + c + u ≤ t2
          · simp only [h0, h1, h1b, h2, h3, if_false, if_true]
            exact key _
          · simp only [h0, h1, h1b, h2, h3, if_false, if_true]
            exact mono_mid (t1 - (s + c)) (t2 - (s + c)) (by omega) (by omega)

/-- A schedule whose `start_time + cliff_period` wraps around the u64 range:
`start = 2^64 - 1`, `cliff = 2`, no unlock window, 10 units locked. -/
def vestingWrapExample : LaunchpadPoolData :=
  { launchpadZeroData with
    vesting_schedule := {
      total_locked_amount := 10
      cliff_period := 2
      unlock_period := 0
      start_time := 2 ^ 64 - 1
      allocated_share_amount := 0 } }

/-- Counterexample to C4 as stated: at `current_time = 5`, strictly before
the mathematical `start + cliff = 2^64 + 1`, the wrapped u64 threshold is 1,
so the code returns the full locked amount 10 instead of the 0 the claim
requires. -/
theorem vesting_unlock_wraparound_cex :
    vestingWrapExample.get_unlocked_amount 5 = 10 ∧
    5 < vestingWrapExample.vesting_schedule.start_time
      + vestingWrapExample.vesting_schedule.cliff_period :=
  ⟨by decide, by decide⟩

/-- The concrete witness schedule: start 1000, cliff 10, unlock 20,
total locked 100. -/
def vestingLinearExample : LaunchpadPoolData :=
  { launchpadZeroData with
    vesting_schedule := {
      total_locked_amount := 100
      cliff_period := 10
      unlock_period := 20
      start_time := 1000
      allocated_share_amount := 0 } }

/-- Witness for C4 at the concrete schedule and concrete times. -/
theorem vesting_unlock_clamped_monotone_witness :
    vestingLinearExample.get_unlocked_amount 1009 = 0 ∧
    vestingLinearExample.get_unlocked_amount 1030 = 100 ∧
    vestingLinearExample.get_unlocked_amount 1020 ≤ 100 ∧
    vestingLinearExample.get_unlocked_amount 1015 ≤
      vestingLinearExample.get_unlocked_amount 1020 := by
  have h := vesting_unlock_clamped_monotone vestingLinearExample (by decide)
  exact ⟨h.1 1009 (by decide), h.2.1 1030 (by decide), h.2.2.1 1020,
    h.2.2.2 1015 1020 (by decide)⟩

/-- C5 (amended): the launchpad spot prices return exactly 0 when their base
reserve field is 0 and the quote/base ratio otherwise, and the CLMM per-side
token amounts return exactly 0 when liquidity is 0; the CPMM price metric,
which works from externally supplied vault balances, instead returns an
error (not 0) when the normalized base amount is 0. -/
theorem zero_reserve_metric_values :
    (∀ p : LaunchpadPoolData, p.virtual_base = 0 → p.get_price = 0) ∧
    (∀ p : LaunchpadPoolData, p.virtual_base ≠ 0 →
      p.get_price = (p.virtual_quote : ℚ) / (p.virtual_base : ℚ)) ∧
    (∀ p : LaunchpadPoolData, p.real_base = 0 → p.get_real_price = 0) ∧
    (∀ p : LaunchpadPoolData, p.real_base ≠ 0 →
      p.get_real_price = (p.real_quote : ℚ) / (p.real_base : ℚ)) ∧
    (∀ p : RaydiumLiquidityPoolCLMMData, p.liquidity = 0 →
      p.get_token_0_amount = 0 ∧ p.get_token_1_amount = 0) ∧
    (∀ (p : RaydiumLiquidityPoolCPMMData) (q : Nat),
      p.get_price_core 0 q = .error .baseAmountZero) := by
  refine ⟨fun p h => ?_, fun p h => ?_, fun p h => ?_, fun p h => ?_,
    fun p h => ⟨?_, ?_⟩, fun p q => ?_⟩
  · simp [LaunchpadPoolData.get_price, h]
  · simp [LaunchpadPoolData.get_price, h]
  · simp [LaunchpadPoolData.get_real_price, h]
  · simp [LaunchpadPoolData.get_real_price, h]
  · simp [RaydiumLiquidityPoolCLMMData.get_token_0_amount, h]
  · simp [RaydiumLiquidityPoolCLMMData.get_token_1_amount, h]
  · simp [RaydiumLiquidityPoolCPMMData.get_price_core, converBalance]

/-- Counterexample to C5 as stated: for the CPMM price metric a zero base
amount yields the zero-base error, not the defined zero result the claim
requires. -/
theorem cpmm_zero_base_price_is_error :
    cpmmZeroData.get_price_core 0 7 = .error .baseAmountZero ∧
    cpmmZeroData.get_price_core 0 7 ≠ .ok 0 := by
  refine ⟨?_, ?_⟩ <;> simp [RaydiumLiquidityPoolCPMMData.get_price_core, converBalance]

/-- Witness for C5 at concrete records. -/
theorem zero_reserve_metric_values_witness :
    launchpadZeroData.get_price = 0 ∧
    launchpadZeroData.get_real_price = 0 ∧
    clmmZeroData.get_token_0_amount = 0 ∧
    clmmZeroData.get_token_1_amount = 0 ∧
    ({ launchpadZeroData with virtual_base := 2, virtual_quote := 1 } :
      LaunchpadPoolData).get_price = (1 : ℚ) / 2 := by
  refine ⟨zero_reserve_metric_values.1 launchpadZeroData rfl,
    zero_reserve_metric_values.2.2.1 launchpadZeroData rfl,
    (zero_reserve_metric_values.2.2.2.2.1 clmmZeroData rfl).1,
    (zero_reserve_metric_values.2.2.2.2.1 clmmZeroData rfl).2, ?_⟩
  have h := zero_reserve_metric_values.2.1
    ({ launchpadZeroData with virtual_base := 2, virtual_quote := 1 }) (by decide)
  simpa using h

/-- C7 (amended): every primitive cursor reader of `src/tool.rs`, whenever
the requested span exceeds the slice bounds and the offset-plus-width sum
does not overflow `usize`, returns the default value of its type (0 for
integers, the all-zero identifier, the empty string, `false`) without
panicking or reading out of bounds — no error is signalled; when the
offset-plus-width sum does overflow `usize` the source panics instead, which
the model reports as the distinguished failure `none`. -/
theorem reader_oob_returns_default :
    (∀ (d : List Nat) (o : Nat), d.length ≤ o → reader.r_u8 d o = 0) ∧
    (∀ (d : List Nat) (o : Nat), o + 2 < 2 ^ 64 → d.length < o + 2 →
      reader.r_u16 d o = some 0) ∧
    (∀ (d : List Nat) (o : Nat), o + 4 < 2 ^ 64 → d.length < o + 4 →
      reader.r_u32 d o = some 0) ∧
    (∀ (d : List Nat) (o : Nat), o + 8 < 2 ^ 64 → d.length < o + 8 →
      reader.r_u64 d o = some 0) ∧
    (∀ (d : List Nat) (o : Nat), o + 16 < 2 ^ 64 → d.length < o + 16 →
      reader.r_u128 d o = some 0) ∧
    (∀ (d : List Nat) (o : Nat), o + 32 < 2 ^ 64 → d.length < o + 32 →
      reader.r_pubkey d o = some Pubkey.zero) ∧
    (∀ (d : List Nat) (o : Nat), d.length ≤ o → reader.r_string d o = []) ∧
    (∀ (d : List Nat) (o : Nat), d.length ≤ o → reader.r_bool d o = false) ∧
    (∀ (d : List Nat) (o : Nat), 2 ^ 64 ≤ o + 2 → reader.r_u16 d o = none) ∧
    (∀ (d : List Nat) (o : Nat), 2 ^ 64 ≤ o + 4 → reader.r_u32 d o = none) ∧
    (∀ (d : List Nat) (o : Nat), 2 ^ 64 ≤ o + 8 → reader.r_u64 d o = none) ∧
    (∀ (d : List Nat) (o : Nat), 2 ^ 64 ≤ o + 16 → reader.r_u128 d o = none) ∧
    (∀ (d : List Nat) (o : Nat), 2 ^ 64 ≤ o + 32 → reader.r_pubkey d o = none) := by
  refine ⟨fun d o h => ?_, fun d o hov h => ?_, fun d o hov h => ?_, fun d o hov h => ?_,
    fun d o hov h => ?_, fun d o hov h => ?_, fun d o h => ?_, fun d o h => ?_,
    fun d o hov => ?_, fun d o hov => ?_, fun d o hov => ?_, fun d o hov => ?_,
    fun d o hov => ?_⟩
  · simp [reader.r_u8, h]
  · rw [reader.r_u16, if_neg (by omega), if_pos h]
  · rw [reader.r_u32, if_neg (by omega), if_pos h]
  · rw [reader.r_u64, if_neg (by omega), if_pos h]
  · rw [reader.r_u128, if_neg (by omega), if_pos h]
  · rw [reader.r_pubkey, if_neg (by omega), if_pos h]
  · simp [reader.r_string, h]
  · simp [reader.r_bool, reader.r_u8, h]
  · rw [reader.r_u16, if_pos hov]
  · rw [reader.r_u32, if_pos hov]
  · rw [reader.r_u64, if_pos hov]
  · rw [reader.r_u128, if_pos hov]
  · rw [reader.r_pubkey, if_pos hov]

/-- Counterexample to C7 as stated: an out-of-bounds `r_u64` read at a small,
non-overflowing offset (8 bytes requested from a 1-byte slice) returns the
plain value `some 0` — the very same value a legitimate in-bounds read of
eight zero bytes returns — so the operation does not fail and signals no
error; and at the overflow-adjacent offset `2^64 - 1` the source does panic
(modelled `none`), refuting the universal never-panics reading as well. -/
theorem reader_oob_indistinguishable_from_zero_read :
    reader.r_u64 [1] 0 = some 0 ∧
    reader.r_u64 (List.replicate 8 0) 0 = some 0 ∧
    ([1] : List Nat).length < 0 + 8 ∧
    0 + 8 ≤ (List.replicate 8 0 : List Nat).length ∧
    reader.r_u64 (List.replicate 8 0) (2 ^ 64 - 1) = none :=
  ⟨by decide, by decide, by decide, by decide, by decide⟩

/-- Witness for C7 at the empty slice (and, for the panic region, at the
overflow-adjacent offset `2^64 - 1` on an 8-byte slice). -/
theorem reader_oob_returns_default_witness :
    reader.r_u8 [] 0 = 0 ∧ reader.r_u16 [] 0 = some 0 ∧ reader.r_u32 [] 0 = some 0 ∧
    reader.r_u64 [] 0 = some 0 ∧ reader.r_u128 [] 0 = some 0 ∧
    reader.r_pubkey [] 0 = some Pubkey.zero ∧ reader.r_string [] 0 = [] ∧
    reader.r_bool [] 0 = false ∧
    reader.r_u64 (List.replicate 8 0) (2 ^ 64 - 1) = none :=
  ⟨reader_oob_returns_default.1 [] 0 (by decide),
   reader_oob_returns_default.2.1 [] 0 (by decide) (by decide),
   reader_oob_returns_default.2.2.1 [] 0 (by decide) (by decide),
   reader_oob_returns_default.2.2.2.1 [] 0 (by decide) (by decide),
   reader_oob_returns_default.2.2.2.2.1 [] 0 (by decide) (by decide),
   reader_oob_returns_default.2.2.2.2.2.1 [] 0 (by decide) (by decide),
   reader_oob_returns_default.2.2.2.2.2.2.1 [] 0 (by decide),
   reader_oob_returns_default.2.2.2.2.2.2.2.1 [] 0 (by decide),
   reader_oob_returns_default.2.2.2.2.2.2.2.2.2.2.1 (List.replicate 8 0) (2 ^ 64 - 1)
     (by decide)⟩

/-- C8: every decode function and every metric function of the embedding is
a pure function of its declared inputs (the wall-clock timestamp of the
vesting metric and the externally fetched balances of the CPMM and v4 prices
being explicit parameters): two invocations on equal inputs return equal
results, for all four decoders and for every metric of every variant —
the launchpad prices, total value, funding progress, status predicates and
vesting unlock, the CLMM spot price, tick price and per-side token amounts,
and the CPMM and v4 balance-based prices. -/
theorem decode_and_metrics_deterministic :
    (∀ d1 d2 : List Nat, d1 = d2 →
      LaunchpadPool.get_liquidity_pool_info d1 = LaunchpadPool.get_liquidity_pool_info d2) ∧
    (∀ d1 d2 : List Nat, d1 = d2 →
      RaydiumLiquidityPoolCPMM.get_liquidity_pool_info d1 =
        RaydiumLiquidityPoolCPMM.get_liquidity_pool_info d2) ∧
    (∀ d1 d2 : List Nat, d1 = d2 →
      RaydiumLiquidityPoolCLMM.get_liquidity_pool_info d1 =
        RaydiumLiquidityPoolCLMM.get_liquidity_pool_info d2) ∧
    (∀ d1 d2 : List Nat, d1 = d2 →
      RaydiumLiquidityPoolV4.get_liquidity_pool_info d1 =
        RaydiumLiquidityPoolV4.get_liquidity_pool_info d2) ∧
    (∀ (p1 p2 : LaunchpadPoolData) (t1 t2 : Nat), p1 = p2 → t1 = t2 →
      p1.get_unlocked_amount t1 = p2.get_unlocked_amount t2) ∧
    (∀ p1 p2 : LaunchpadPoolData, p1 = p2 →
      p1.get_price = p2.get_price ∧ p1.get_real_price = p2.get_real_price ∧
      p1.get_total_value = p2.get_total_value ∧
      p1.get_funding_progress = p2.get_funding_progress ∧
      p1.is_funding = p2.is_funding ∧ p1.is_tradable = p2.is_tradable) ∧
    (∀ p1 p2 : RaydiumLiquidityPoolCLMMData, p1 = p2 →
      p1.get_price_core = p2.get_price_core ∧
      p1.get_tick_price = p2.get_tick_price ∧
      p1.get_token_0_amount = p2.get_token_0_amount ∧
      p1.get_token_1_amount = p2.get_token_1_amount) ∧
    (∀ (p1 p2 : RaydiumLiquidityPoolCPMMData) (b1 b2 q1 q2 : Nat),
      p1 = p2 → b1 = b2 → q1 = q2 →
      p1.get_price_core b1 q1 = p2.get_price_core b2 q2) ∧
    (∀ (p1 p2 : RaydiumLiquidityPoolData) (b1 b2 q1 q2 : Nat),
      p1 = p2 → b1 = b2 → q1 = q2 →
      p1.get_price_core b1 q1 = p2.get_price_core b2 q2) := by
  refine ⟨fun d1 d2 h => by rw [h], fun d1 d2 h => by rw [h], fun d1 d2 h => by rw [h],
    fun d1 d2 h => by rw [h], fun p1 p2 t1 t2 h ht => by rw [h, ht],
    fun p1 p2 h => by rw [h]; exact ⟨rfl, rfl, rfl, rfl, rfl, rfl⟩,
    fun p1 p2 h => by rw [h]; exact ⟨rfl, rfl, rfl, rfl⟩,
    fun p1 p2 b1 b2 q1 q2 h hb hq => by rw [h, hb, hq],
    fun p1 p2 b1 b2 q1 q2 h hb hq => by rw [h, hb, hq]⟩

/-- Witness for C8 at concrete equal inputs. -/
theorem decode_and_metrics_deterministic_witness :
    LaunchpadPool.get_liquidity_pool_info (List.replicate 429 0) =
      LaunchpadPool.get_liquidity_pool_info (List.replicate 429 0) ∧
    launchpadZeroData.get_unlocked_amount 7 = launchpadZeroData.get_unlocked_amount 7 ∧
    clmmZeroData.get_tick_price = clmmZeroData.get_tick_price ∧
    cpmmZeroData.get_price_core 1 2 = cpmmZeroData.get_price_core 1 2 ∧
    v4ZeroData.get_price_core 3 4 = v4ZeroData.get_price_core 3 4 :=
  ⟨decode_and_metrics_deterministic.1 (List.replicate 429 0) (List.replicate 429 0) rfl,
   decode_and_metrics_deterministic.2.2.2.2.1 launchpadZeroData launchpadZeroData 7 7 rfl rfl,
   (decode_and_metrics_deterministic.2.2.2.2.2.2.1 clmmZeroData clmmZeroData rfl).2.1,
   decode_and_metrics_deterministic.2.2.2.2.2.2.2.1 cpmmZeroData cpmmZeroData 1 1 2 2
     rfl rfl rfl,
   decode_and_metrics_deterministic.2.2.2.2.2.2.2.2 v4ZeroData v4ZeroData 3 3 4 4
     rfl rfl rfl⟩
